import Mathlib

set_option linter.unusedSectionVars false

/-!
Shallow embedding of `zstdlib/io.py`: the lookahead/pushback stream wrapper
(`_IOWrapperBase`, `TextIO`, `BinaryIO`, `_mode`, `io`).

A wrapped stream's observable state is its pending buffer plus the remaining
raw-stream data, both modelled as `List α` over the element type `α`
(characters in text mode, byte values in binary mode).  Python's
negative-index slicing, `str.find`, and the raw stream's `read` contract
("a negative size reads to end of stream") are modelled explicitly.
Errors are the Python exception types that the code can raise.
-/

namespace Zstdlib

/-- Exception types raised by the code in `zstdlib/io.py`. -/
inductive IOErr : Type
  | typeError
  | valueError
  | eofError
deriving DecidableEq, Repr

section Core

variable {α : Type} [DecidableEq α]

/-- Python slice `l[:k]`, including Python's negative-index behaviour. -/
def pySliceTo (l : List α) (k : Int) : List α :=
  if 0 ≤ k then l.take k.toNat else l.take (l.length - (-k).toNat)

/-- Python slice `l[k:]`, including Python's negative-index behaviour. -/
def pySliceFrom (l : List α) (k : Int) : List α :=
  if 0 ≤ k then l.drop k.toNat else l.drop (l.length - (-k).toNat)

/-- The raw stream's `read(size)` (`_IOWrapperBase._read` delegating to
`self.f.raw.read`): a negative size reads everything to end of stream;
a nonnegative size returns up to `size` elements, fewer only at end of
stream.  Returns the data read and the remaining stream. -/
def rawRead (size : Int) (s : List α) : List α × List α :=
  if size < 0 then (s, []) else (s.take size.toNat, s.drop size.toNat)

/-- `_IOWrapperBase._read_buffer(size)`: `size == -1` means the whole
buffer; returns `buffer[:size]` and leaves `buffer[size:]`. -/
def readBuffer (size : Int) (buf : List α) : List α × List α :=
  let k : Int := if size = -1 then (buf.length : Int) else size
  (pySliceTo buf k, pySliceFrom buf k)

/-- `_IOWrapperBase.read(size)`: serve from the buffer first, then pull the
remainder from the raw stream (`-1` pulls to end of stream).  Returns
`(result, buffer', stream')`. -/
def pyRead (size : Int) (buf s : List α) : List α × List α × List α :=
  if size = 0 then ([], buf, s)
  else
    let p := readBuffer size buf
    if (p.1.length : Int) = size then (p.1, p.2, s)
    else
      let q := rawRead (if size = -1 then -1 else size - p.1.length) s
      (p.1 ++ q.1, p.2, q.2)

/-- `_IOWrapperBase.unread(data)`: prepend `data` to the buffer. -/
def pyUnread (data buf : List α) : List α :=
  data ++ buf

/-- `_IOWrapperBase.peek(size)`: `read(size)` then `unread` the result. -/
def pyPeek (size : Int) (buf s : List α) : List α × List α × List α :=
  let r := pyRead size buf s
  (r.1, pyUnread r.1 r.2.1, r.2.2)

/-- Index of the first mismatch between two lists (the `enumerate(zip ...)`
scan inside `_IOWrapperBase._remainder`); `none` when either list runs out
before any mismatch is seen. -/
def firstMismatch : List α → List α → Option Nat
  | x :: xs, y :: ys => if x ≠ y then some 0 else (firstMismatch xs ys).map (· + 1)
  | _, _ => none

/-- `_IOWrapperBase._remainder(data, suffix)`: walk the accumulated chunks
and the delimiter backwards in lockstep; on the first mismatch at position
`i` (from the end) return `len(suffix) - i`, and return `0` when no
mismatch is found before either side is exhausted. -/
def remainder (chunks : List (List α)) (suffix : List α) : Nat :=
  match firstMismatch chunks.flatten.reverse suffix.reverse with
  | some i => suffix.length - i
  | none => 0

/-- The overlap length as the specification words it (spec 4.3 step 3, for
comparison with the code's `remainder`): the length of the longest suffix
of the accumulated data that is also a prefix of the delimiter. -/
def specOverlap (data delim : List α) : Nat :=
  ((List.range (delim.length + 1)).filter
    (fun k => (delim.take k).isSuffixOf data)).foldl max 0

/-- Python `buffer.find(sub)` for a non-empty `sub`: index of the leftmost
occurrence, `none` when absent (`find` returns `-1`). -/
def findSub (l pat : List α) : Option Nat :=
  if pat.isPrefixOf l then some 0
  else
    match l with
    | [] => none
    | _ :: xs => (findSub xs pat).map (· + 1)

/-- The accumulation loop of `_IOWrapperBase.readuntil`:
`while (n := self._remainder(buffer, until)) and (add := self._read(n)):
buffer.append(add)`.  The loop is written with explicit fuel to keep it
structurally recursive; fuel `s.length` is exact, because every iteration
consumes at least one stream element, and when the fuel runs out the
stream is empty, where the loop would stop anyway (`add` empty). -/
def readuntilScan (u : List α) : Nat → List (List α) → List α → List (List α) × List α
  | 0, chunks, s => (chunks, s)
  | fuel + 1, chunks, s =>
    let n := remainder chunks u
    if n = 0 then (chunks, s)
    else
      let add := s.take n
      if add = [] then (chunks, s)
      else readuntilScan u fuel (chunks ++ [add]) (s.drop n)

/-- `_IOWrapperBase.readuntil(until, eof_ok)` on state `(buf, s)`.
Returns `(result-or-exception, buffer', stream')`; the state components
record what the Python object holds after the call, also when it raises. -/
def readuntil (u : List α) (eofOk : Bool) (buf s : List α) :
    Except IOErr (List α) × List α × List α :=
  if u.length = 0 then (.error .valueError, buf, s)
  else
    match findSub buf u with
    | some i =>
      let k := i + u.length
      (.ok (buf.take k), buf.drop k, s)
    | none =>
      let sc := readuntilScan u s.length [buf] s
      let ret := sc.1.flatten
      if u.isSuffixOf ret = false ∧ eofOk = false then (.error .eofError, [], sc.2)
      else (.ok ret, [], sc.2)

end Core

/-! Element-kind detection and wrapper construction (`_mode`,
`_IOWrapperBase.__new__` / `__init__`, `TextIO`, `BinaryIO`, `io`). -/

/-- The two element kinds a wrapper's buffer can have (`bytes` vs `str`). -/
inductive Kind : Type
  | bytesKind
  | charsKind
deriving DecidableEq, Repr

/-- What `_mode` inspects about a raw stream: its `mode` attribute
(`getattr(f, "mode", "")`, modelled as a list of characters, `[]` when the
attribute is absent or empty), and the two `isinstance` tests. -/
structure RawDesc : Type where
  mode : List Char
  isRawOrBuffered : Bool
  isTextBase : Bool
deriving DecidableEq, Repr

/-- `_mode(f, binary)`.  The `binary` parameter is `True`, `False` or
`None` (`Option Bool`); Python's `binary or X or Y` makes the local
`binary` true exactly when the parameter is `True` or a detection fires,
and `text` is `(binary is False) or (mode and "b" not in mode) or
isinstance(f, TextIOBase)` on the reassigned local.  Returns the final
`text` truthiness or the raised `TypeError`. -/
def pyMode (f : RawDesc) (binary : Option Bool) : Except IOErr Bool :=
  let b := binary.getD false || f.mode.contains 'b' || f.isRawOrBuffered
  let t := (b = false : Bool) || (!f.mode.isEmpty && !f.mode.contains 'b') || f.isTextBase
  if t = false ∧ b = false then .error .typeError
  else if t = true ∧ b = true then .error .typeError
  else .ok t

/-- The class-level instance registry (`_IOWrapperBase._instances` together
with `_wr_lock`): an association from raw-stream identity to wrapper
identity, a source of fresh wrapper identities, and a count of how many
times `super().__new__` actually ran. -/
structure Registry : Type where
  table : List (Nat × Nat)
  nextId : Nat
  constructions : Nat
deriving DecidableEq, Repr

/-- Association-list lookup used by the registry model. -/
def regLookup : List (Nat × Nat) → Nat → Option Nat
  | [], _ => none
  | (k, v) :: rest, sid => if k = sid then some v else regLookup rest sid

/-- `_IOWrapperBase.__new__`: under the registry lock, return the cached
instance for `sid` if one exists, else construct a fresh instance and
record it. -/
def baseNew (r : Registry) (sid : Nat) : Nat × Registry :=
  match regLookup r.table sid with
  | some iid => (iid, r)
  | none =>
    (r.nextId,
      { table := (sid, r.nextId) :: r.table,
        nextId := r.nextId + 1,
        constructions := r.constructions + 1 })

/-- `TextIO.__new__(cls, f)`: validate `_mode(f, binary=False)` first (it
runs on every call, also when the instance is cached), raise `TypeError`
when the stream is not text, then delegate to `_IOWrapperBase.__new__`. -/
def textIONew (f : RawDesc) (sid : Nat) (r : Registry) : Except IOErr (Nat × Registry) :=
  match pyMode f (some false) with
  | .error e => .error e
  | .ok t => if t = false then .error .typeError else .ok (baseNew r sid)

/-- `BinaryIO.__new__(cls, f)`: validate `_mode(f, binary=True)` first
(again on every call), raise `TypeError` when it reports text, then
delegate to `_IOWrapperBase.__new__`. -/
def binaryIONew (f : RawDesc) (sid : Nat) (r : Registry) : Except IOErr (Nat × Registry) :=
  match pyMode f (some true) with
  | .error e => .error e
  | .ok t => if t = true then .error .typeError else .ok (baseNew r sid)

/-- Which wrapper class `io(raw, binary)` picks. -/
inductive WrapClass : Type
  | textWrapper
  | binaryWrapper
deriving DecidableEq, Repr

/-- `io(raw, binary)`: run `_mode(raw, binary)` and construct a `TextIO`
when it reports text, else a `BinaryIO`. -/
def pyIoWrap (f : RawDesc) (binary : Option Bool) (sid : Nat) (r : Registry) :
    Except IOErr (WrapClass × Nat × Registry) :=
  match pyMode f binary with
  | .error e => .error e
  | .ok t =>
    if t then
      match textIONew f sid r with
      | .error e => .error e
      | .ok p => .ok (.textWrapper, p.1, p.2)
    else
      match binaryIONew f sid r with
      | .error e => .error e
      | .ok p => .ok (.binaryWrapper, p.1, p.2)

/-- The per-instance state set by `_IOWrapperBase.__init__`: the runtime
kind of `self._buffer` (decided by the `binary` keyword), the buffer's
contents, and generation numbers standing for the identity of the
`ProtectedFile` façade and the `RLock` created by `__init__`. -/
structure WrapperState : Type where
  bufferKind : Kind
  buffer : List Nat
  facadeGen : Nat
  lockGen : Nat
deriving DecidableEq, Repr

/-- `_IOWrapperBase.__init__(f, binary=...)`: `self._buffer = (bytes if
binary else str)()`, `self.f = ProtectedFile(f)`, `self.lock = RLock()`.
`gen` is the first fresh object identity available to this call. -/
def ioWrapperBaseInit (binary : Bool) (gen : Nat) : WrapperState :=
  { bufferKind := if binary then .bytesKind else .charsKind,
    buffer := [],
    facadeGen := gen,
    lockGen := gen + 1 }

/-- `TextIO.__init__(f)`: `super().__init__(f, binary=False)`. -/
def textIOInit (gen : Nat) : WrapperState :=
  ioWrapperBaseInit false gen

/-- `BinaryIO.__init__(f)`: the source passes `binary=False`
(`super().__init__(f, binary=False)`, `io.py` line 226). -/
def binaryIOInit (gen : Nat) : WrapperState :=
  ioWrapperBaseInit false gen

/-- Python concatenation of a `str`/`bytes` value of kind `k1` with one of
kind `k2` (used by `unread`'s `data + self._buffer` and `read`'s
`ret += ...`): mixing the kinds raises `TypeError`. -/
def pyConcatKind (k1 k2 : Kind) : Except IOErr Kind :=
  if k1 = k2 then .ok k1 else .error .typeError

/-- The guard at the top of `readuntil`:
`isinstance(until, str) ^ isinstance(self._buffer, str)` raises
`TypeError` before anything else runs. -/
def readuntilKindCheck (untilKind bufKind : Kind) : Option IOErr :=
  if (untilKind = .charsKind : Bool) ≠ (bufKind = .charsKind : Bool) then
    some .typeError
  else none

/-- Whole-system state for re-construction scenarios: the registry, each
instance's `__init__`-set state, and a counter handing out fresh object
identities (for `ProtectedFile` / `RLock`). -/
structure Sys : Type where
  reg : Registry
  engines : List (Nat × WrapperState)
  fresh : Nat
deriving DecidableEq, Repr

/-- Read an instance's state. -/
def getEngine : List (Nat × WrapperState) → Nat → Option WrapperState
  | [], _ => none
  | (k, v) :: rest, i => if k = i then some v else getEngine rest i

/-- Write an instance's state (replace the first binding, or add one). -/
def setEngine : List (Nat × WrapperState) → Nat → WrapperState → List (Nat × WrapperState)
  | [], i, e => [(i, e)]
  | (k, v) :: rest, i, e =>
    if k = i then (i, e) :: rest else (k, v) :: setEngine rest i e

/-- The full Python constructor call `TextIO(f)`: `__new__` (with its
validation and registry lookup) followed by `__init__` on the returned
instance.  `__init__` runs again also when `__new__` returned a cached
instance of the class, resetting its buffer and replacing its façade and
lock. -/
def textIOConstruct (f : RawDesc) (sid : Nat) (st : Sys) : Except IOErr (Nat × Sys) :=
  match textIONew f sid st.reg with
  | .error e => .error e
  | .ok p =>
    .ok (p.1,
      { reg := p.2,
        engines := setEngine st.engines p.1 (textIOInit st.fresh),
        fresh := st.fresh + 2 })

/-- `unread(data)` on instance `i` of a system state: prepend `data` to
that instance's buffer (kind checks aside, `data + self._buffer`). -/
def sysUnread (i : Nat) (d : List Nat) (st : Sys) : Sys :=
  match getEngine st.engines i with
  | none => st
  | some e =>
    { st with engines := setEngine st.engines i { e with buffer := d ++ e.buffer } }

/-! General lemmas about the embedded operations. -/

section CoreLemmas

variable {α : Type} [DecidableEq α]

theorem readBuffer_ofNat (m : Nat) (buf : List α) :
    readBuffer (m : Int) buf = (buf.take m, buf.drop m) := by
  have h1 : ¬((m : Int) = -1) := by omega
  simp [readBuffer, pySliceTo, pySliceFrom, h1, Int.toNat_natCast]

theorem rawRead_ofNat (n : Nat) (s : List α) :
    rawRead (n : Int) s = (s.take n, s.drop n) := by
  have h : ¬((n : Int) < 0) := by omega
  simp [rawRead, h, Int.toNat_natCast]

/-- `read` at a nonnegative size `m` returns the first `m` elements of the
logical stream, drops them from the buffer first and then from the raw
stream. -/
theorem pyRead_ofNat (m : Nat) (buf s : List α) :
    pyRead (m : Int) buf s = ((buf ++ s).take m, buf.drop m, s.drop (m - buf.length)) := by
  rcases Nat.eq_zero_or_pos m with hm | hm
  · subst hm; simp [pyRead]
  · have h0 : ¬((m : Int) = 0) := by omega
    have h1 : ¬((m : Int) = -1) := by omega
    simp only [pyRead, if_neg h0, readBuffer_ofNat]
    by_cases hmb : m ≤ buf.length
    · have hlen : (((buf.take m, buf.drop m).1.length : Int) = (m : Int)) := by
        simp [List.length_take]; omega
      rw [if_pos hlen]
      have h2 : (buf ++ s).take m = buf.take m := List.take_append_of_le_length hmb
      have h3 : m - buf.length = 0 := Nat.sub_eq_zero_of_le hmb
      simp [h2, h3]
    · have hlt : buf.length < m := Nat.lt_of_not_le hmb
      have hlen : ¬(((buf.take m, buf.drop m).1.length : Int) = (m : Int)) := by
        simp [List.length_take]; omega
      rw [if_neg hlen]
      have htake : buf.take m = buf := List.take_of_length_le (Nat.le_of_lt hlt)
      have hcast : ((m : Int) - ((buf.take m).length : Int)) = ((m - buf.length : Nat) : Int) := by
        rw [htake]; omega
      simp only [if_neg h1, hcast, rawRead_ofNat]
      simp [htake, List.take_append_eq_append_take]

/-- `read(-1)` returns the whole buffer followed by the whole remaining
stream, emptying both. -/
theorem pyRead_negOne (buf s : List α) :
    pyRead (-1) buf s = (buf ++ s, [], []) := by
  have h0 : ¬((-1 : Int) = 0) := by omega
  have hlen : ¬(((readBuffer (-1) buf).1.length : Int) = (-1 : Int)) := by
    intro h
    omega
  have hb : readBuffer (-1 : Int) buf = (buf, []) := by
    simp [readBuffer, pySliceTo, pySliceFrom, Int.toNat_natCast]
  rw [pyRead, if_neg h0]
  rw [hb] at hlen ⊢
  rw [if_neg hlen]
  simp [rawRead]

/-- The `readuntil` accumulation loop never loses or reorders elements:
the flattened chunks plus the remaining stream are an invariant. -/
theorem readuntilScan_flatten (u : List α) (fuel : Nat) :
    ∀ chunks s, (readuntilScan u fuel chunks s).1.flatten ++ (readuntilScan u fuel chunks s).2
      = chunks.flatten ++ s := by
  induction fuel with
  | zero => intro chunks s; rfl
  | succ fuel ih =>
    intro chunks s
    by_cases hn : remainder chunks u = 0
    · simp [readuntilScan, hn]
    · by_cases ha : s.take (remainder chunks u) = ([] : List α)
      · simp [readuntilScan, hn, ha]
      · have : readuntilScan u (fuel + 1) chunks s
            = readuntilScan u fuel (chunks ++ [s.take (remainder chunks u)])
              (s.drop (remainder chunks u)) := by
          simp [readuntilScan, hn, ha]
        rw [this, ih]
        simp [List.flatten_append, List.append_assoc, List.take_append_drop]

/-- A cache hit in `__new__` is stable: once `baseNew` has produced `(i, r)`,
running it again on the produced registry returns the same instance and
leaves the registry (hence the construction count) unchanged. -/
theorem baseNew_idem (r : Registry) (sid : Nat) (i : Nat) (r' : Registry)
    (h : baseNew r sid = (i, r')) : baseNew r' sid = (i, r') := by
  unfold baseNew at h ⊢
  cases hl : regLookup r.table sid with
  | some j =>
    rw [hl] at h
    obtain ⟨hi, hr⟩ := Prod.mk.injEq .. ▸ h
    subst hi; subst hr
    rw [hl]
  | none =>
    rw [hl] at h
    obtain ⟨hi, hr⟩ := Prod.mk.injEq .. ▸ h
    subst hi; subst hr
    simp [regLookup]

/-- Reading back the instance just written. -/
theorem getEngine_setEngine (l : List (Nat × WrapperState)) (i : Nat) (e : WrapperState) :
    getEngine (setEngine l i e) i = some e := by
  induction l with
  | nil => simp [setEngine, getEngine]
  | cons p rest ih =>
    by_cases h : p.1 = i
    · simp [setEngine, getEngine, h]
    · simp [setEngine, getEngine, h, ih]

end CoreLemmas

/-- Same-class re-wrapping is stable: once `TextIO.__new__` has produced
instance `i` and registry `r'`, running it again against `r'` returns the
same instance and leaves the registry — including its construction
count — unchanged. -/
theorem textIONew_stable (f : RawDesc) (sid i : Nat) (r r' : Registry)
    (h : textIONew f sid r = .ok (i, r')) : textIONew f sid r' = .ok (i, r') := by
  unfold textIONew at h ⊢
  cases hm : pyMode f (some false) with
  | error e => rw [hm] at h; simp at h
  | ok t =>
    rw [hm] at h
    dsimp only at h
    by_cases ht : t = false
    · rw [if_pos ht] at h; simp at h
    · rw [if_neg ht] at h
      dsimp only
      rw [if_neg ht]
      simp only [Except.ok.injEq] at h
      rw [baseNew_idem r sid i r' h]

/-! The claims. -/

/-- Claim C1 (code-bug evaluation): with an empty pending buffer and raw
stream `[9,0,1,5]`, which contains the delimiter `[0,1]`, `readuntil`
returns the empty sequence and consumes nothing — not the shortest prefix
`[9,0,1]` ending with the delimiter that the claim (and the method's own
docstring) promise.  `_remainder` returns `0` whenever the accumulated
data is a proper end-segment of the delimiter (here: empty data), so the
scan loop never issues a single raw read. -/
theorem c1_readuntil_misses_delimiter :
    readuntil [0, 1] true ([] : List Nat) [9, 0, 1, 5] = (.ok [], [], [9, 0, 1, 5])
      ∧ ([] : List Nat) ≠ [9, 0, 1] :=
  ⟨rfl, by decide⟩

/-- Claim C2 (code-bug evaluation): `BinaryIO.__init__` passes
`binary=False` to the base initializer (`io.py` line 226), so a stream
wrapped as binary gets a character-kind (`str`) buffer, not a `bytes`
one; consequently concatenating raw `bytes` data with the buffer (as
`read`/`unread` do) and passing a `bytes` delimiter to `readuntil` both
raise `TypeError`. -/
theorem c2_binary_wrapper_buffer_is_str :
    (binaryIOInit 0).bufferKind = Kind.charsKind
      ∧ (binaryIOInit 0).bufferKind ≠ Kind.bytesKind
      ∧ pyConcatKind Kind.bytesKind (binaryIOInit 0).bufferKind = .error .typeError
      ∧ readuntilKindCheck Kind.bytesKind (binaryIOInit 0).bufferKind = some .typeError :=
  ⟨rfl, by decide, rfl, rfl⟩

/-- Claim C3 (code-bug evaluation): the quantity `_remainder` computes is
not `len(delimiter) - overlap` for the claimed overlap (longest suffix of
the accumulated data that is a prefix of the delimiter).  With data
`[5,0]` and delimiter `[0,1]` the claimed request is `2 - 1 = 1` but the
code requests `2`; with data `[1,1]` the claimed request is `2 - 0 = 2`
but the code requests `1` — strictly fewer than the claimed minimum. -/
theorem c3_remainder_is_not_overlap :
    remainder [([5, 0] : List Nat)] [0, 1] ≠ [0, 1].length - specOverlap ([5, 0] : List Nat) [0, 1]
      ∧ remainder [([1, 1] : List Nat)] [0, 1] < [0, 1].length - specOverlap ([1, 1] : List Nat) [0, 1] := by
  decide

/-- Claim C9 (code-bug evaluation): a raw stream whose element kind is
ambiguous (no `mode` attribute, no `isinstance` evidence, no override)
does not raise `TypeError`.  `_mode` reassigns `binary` before computing
`text`, so `binary is False` already holds whenever no binary evidence
exists, making the `"Cannot determine"` branch unreachable; `io` silently
wraps such a stream as text. -/
theorem c9_ambiguous_stream_wrapped_as_text :
    pyMode ⟨[], false, false⟩ none = .ok true
      ∧ pyIoWrap ⟨[], false, false⟩ none 0 ⟨[], 0, 0⟩
          = .ok (.textWrapper, 0, ⟨[(0, 0)], 1, 1⟩) :=
  ⟨rfl, rfl⟩

/-- Claim C6 counterexample: `read(-2)` with pending buffer `[0,1]` and
raw stream `[2,3]` returns only `[2,3]` and leaves the buffer `[0,1]` in
place — not the entire buffer followed by the stream with the buffer
emptied.  Only `-1` is treated as read-to-EOF; any other negative size
falls into Python's negative slicing of the buffer. -/
theorem c6_negative_size_counterexample :
    pyRead (-2) [0, 1] ([2, 3] : List Nat) = ([2, 3], [0, 1], [])
      ∧ (([2, 3], [0, 1], []) : List Nat × List Nat × List Nat) ≠ ([0, 1, 2, 3], [], []) :=
  ⟨rfl, by decide⟩

/-- Claim C6 as amended: for the unspecified size, i.e. `-1`, `read`
returns the entire pending buffer followed by all remaining raw-stream
data, leaving the buffer empty and the raw stream at end of stream. -/
theorem c6_read_unbounded (buf s : List Nat) :
    pyRead (-1) buf s = (buf ++ s, [], []) :=
  pyRead_negOne buf s

/-- Claim C7 counterexample: `peek(-2)` with pending buffer `[0,1]` and
raw stream `[2,3]` leaves logical stream content `[2,3,0,1]` — it
reorders the stream rather than leaving the logical position unchanged. -/
theorem c7_peek_negative_counterexample :
    (pyPeek (-2) [0, 1] ([2, 3] : List Nat)).2.1 ++ (pyPeek (-2) [0, 1] ([2, 3] : List Nat)).2.2
        = [2, 3, 0, 1]
      ∧ [2, 3, 0, 1] ≠ [0, 1] ++ ([2, 3] : List Nat) :=
  ⟨rfl, by decide⟩

/-- Claim C4 counterexample: `readuntil([7,7], eof_ok=False)` on pending
buffer `[0,1]` and an exhausted raw stream raises `EOFError` and leaves
the buffer empty: the two drained elements are neither in a result nor
restored — they are lost. -/
theorem c4_eof_error_drops_buffer :
    readuntil [7, 7] false [0, 1] ([] : List Nat) = (.error .eofError, [], [])
      ∧ ([] : List Nat) ≠ [0, 1] :=
  ⟨rfl, by decide⟩

/-- Claim C5 counterexample: the element kind is re-validated on every
wrap, before the cache lookup.  After a text-mode stream (mode `"r"`) is
wrapped by `TextIO`, requesting the same stream through `BinaryIO` raises
`TypeError` from `_mode` instead of returning the cached engine. -/
theorem c5_revalidation_on_cached_path :
    textIONew ⟨['r'], false, false⟩ 0 ⟨[], 0, 0⟩ = .ok (0, ⟨[(0, 0)], 1, 1⟩)
      ∧ binaryIONew ⟨['r'], false, false⟩ 0 ⟨[(0, 0)], 1, 1⟩ = .error .typeError :=
  ⟨rfl, rfl⟩

/-- Claim C4 as amended: whenever `readuntil` returns a result (delimiter
found, or end of stream with `eof_ok=True`), no element is dropped or
reordered — the original buffer-plus-stream contents equal the result
followed by the final buffer and stream.  Only the `EOFError` outcome
(see the counterexample) discards the drained data. -/
theorem c4_ok_conserves (u : List Nat) (eofOk : Bool) (buf s ret buf' s' : List Nat)
    (h : readuntil u eofOk buf s = (.ok ret, buf', s')) :
    buf ++ s = ret ++ buf' ++ s' := by
  unfold readuntil at h
  by_cases hu : u.length = 0
  · rw [if_pos hu] at h
    simp at h
  · rw [if_neg hu] at h
    cases hf : findSub buf u with
    | some i =>
      rw [hf] at h
      simp only [Prod.mk.injEq, Except.ok.injEq] at h
      obtain ⟨h1, h2, h3⟩ := h
      subst h1; subst h2; subst h3
      simp [List.take_append_drop]
    | none =>
      rw [hf] at h
      dsimp only at h
      by_cases hend : (u.isSuffixOf (readuntilScan u s.length [buf] s).1.flatten) = false
          ∧ eofOk = false
      · rw [if_pos hend] at h; simp at h
      · rw [if_neg hend] at h
        simp only [Prod.mk.injEq, Except.ok.injEq] at h
        obtain ⟨h1, h2, h3⟩ := h
        subst h1; subst h2; subst h3
        have hc := readuntilScan_flatten u s.length [buf] s
        simp only [List.flatten_cons, List.flatten_nil, List.append_nil] at hc
        simp [← hc]

/-- Witness for `c4_ok_conserves` at a concrete input: delimiter `[1]`
found inside the buffer `[0,1,2]`. -/
theorem c4_ok_conserves_witness :
    readuntil [1] true [0, 1, 2] ([] : List Nat) = (.ok [0, 1], [2], [])
      ∧ [0, 1, 2] ++ ([] : List Nat) = [0, 1] ++ [2] ++ [] :=
  ⟨rfl, c4_ok_conserves [1] true [0, 1, 2] [] [0, 1] [2] [] rfl⟩

/-- Claim C5 as amended: re-wrapping the same raw stream with the same
wrapper class returns the identical cached instance without a second
construction (the registry, including its construction counter, is
unchanged), and a fresh first wrap performs exactly one construction;
however the requested element kind is re-validated on every wrap, before
the cache lookup, so a mismatched request fails instead of returning the
cached engine (see the counterexample). -/
theorem c5_cached_second_wrap (f : RawDesc) (sid i : Nat) (r r' : Registry)
    (hfresh : regLookup r.table sid = none)
    (h : textIONew f sid r = .ok (i, r')) :
    textIONew f sid r' = .ok (i, r') ∧ r'.constructions = r.constructions + 1 := by
  refine ⟨textIONew_stable f sid i r r' h, ?_⟩
  unfold textIONew at h
  cases hm : pyMode f (some false) with
  | error e => rw [hm] at h; simp at h
  | ok t =>
    rw [hm] at h
    dsimp only at h
    by_cases ht : t = false
    · rw [if_pos ht] at h; simp at h
    · rw [if_neg ht] at h
      simp only [Except.ok.injEq] at h
      unfold baseNew at h
      rw [hfresh] at h
      simp only [Prod.mk.injEq] at h
      rw [← h.2]

/-- Witness for `c5_cached_second_wrap`: a text-mode stream wrapped twice
through `TextIO` starting from an empty registry. -/
theorem c5_cached_second_wrap_witness :
    regLookup (Registry.mk [] 0 0).table 0 = none
      ∧ textIONew ⟨['r'], false, false⟩ 0 ⟨[], 0, 0⟩ = .ok (0, ⟨[(0, 0)], 1, 1⟩)
      ∧ textIONew ⟨['r'], false, false⟩ 0 ⟨[(0, 0)], 1, 1⟩ = .ok (0, ⟨[(0, 0)], 1, 1⟩)
      ∧ (Registry.mk [(0, 0)] 1 1).constructions = (Registry.mk [] 0 0).constructions + 1 :=
  ⟨rfl, rfl,
    (c5_cached_second_wrap ⟨['r'], false, false⟩ 0 0 ⟨[], 0, 0⟩ ⟨[(0, 0)], 1, 1⟩ rfl rfl).1,
    (c5_cached_second_wrap ⟨['r'], false, false⟩ 0 0 ⟨[], 0, 0⟩ ⟨[(0, 0)], 1, 1⟩ rfl rfl).2⟩

/-- Claim C7 as amended: for every size `n` that is `-1` (the unspecified
default) or nonnegative, `peek(n)` returns exactly what `read(n)` would;
a `read(n)` right after the peek returns the same result as a `read(n)`
with no peek before it; a repeated `peek(n)` returns the same result
again; and the logical stream content (buffer followed by remaining raw
data) is unchanged by the peek.  For other negative sizes the buffer is
reordered (see the counterexample). -/
theorem c7_peek_read_agree (n : Int) (buf s : List Nat) (h : n = -1 ∨ 0 ≤ n) :
    (pyPeek n buf s).1 = (pyRead n buf s).1
      ∧ (pyRead n (pyPeek n buf s).2.1 (pyPeek n buf s).2.2).1 = (pyRead n buf s).1
      ∧ (pyPeek n (pyPeek n buf s).2.1 (pyPeek n buf s).2.2).1 = (pyPeek n buf s).1
      ∧ (pyPeek n buf s).2.1 ++ (pyPeek n buf s).2.2 = buf ++ s := by
  rcases h with h | h
  · subst h
    simp [pyPeek, pyUnread, pyRead_negOne]
  · obtain ⟨m, rfl⟩ : ∃ m : Nat, n = (m : Int) := ⟨n.toNat, (Int.toNat_of_nonneg h).symm⟩
    have hstate : (pyPeek (m : Int) buf s).2.1 ++ (pyPeek (m : Int) buf s).2.2 = buf ++ s := by
      simp only [pyPeek, pyUnread, pyRead_ofNat]
      rw [List.append_assoc, ← List.drop_append_eq_append_drop, List.take_append_drop]
    refine ⟨rfl, ?_, ?_, hstate⟩
    · rw [pyRead_ofNat m ((pyPeek (m : Int) buf s).2.1) ((pyPeek (m : Int) buf s).2.2)]
      dsimp only
      rw [hstate, pyRead_ofNat m buf s]
    · show (pyRead (m : Int) (pyPeek (m : Int) buf s).2.1 (pyPeek (m : Int) buf s).2.2).1
        = (pyPeek (m : Int) buf s).1
      rw [pyRead_ofNat m ((pyPeek (m : Int) buf s).2.1) ((pyPeek (m : Int) buf s).2.2)]
      dsimp only
      rw [hstate]
      show (buf ++ s).take m = (pyRead (m : Int) buf s).1
      rw [pyRead_ofNat m buf s]

/-- Witness for `c7_peek_read_agree` at `n = 2`, buffer `[0]`,
stream `[1,2]`. -/
theorem c7_peek_read_agree_witness :
    ((2 : Int) = -1 ∨ (0 : Int) ≤ 2)
      ∧ ((pyPeek 2 [0] ([1, 2] : List Nat)).1 = (pyRead 2 [0] [1, 2]).1
        ∧ (pyRead 2 (pyPeek 2 [0] ([1, 2] : List Nat)).2.1 (pyPeek 2 [0] [1, 2]).2.2).1
            = (pyRead 2 [0] [1, 2]).1
        ∧ (pyPeek 2 (pyPeek 2 [0] ([1, 2] : List Nat)).2.1 (pyPeek 2 [0] [1, 2]).2.2).1
            = (pyPeek 2 [0] [1, 2]).1
        ∧ (pyPeek 2 [0] ([1, 2] : List Nat)).2.1 ++ (pyPeek 2 [0] [1, 2]).2.2 = [0] ++ [1, 2]) :=
  ⟨Or.inr (by decide), c7_peek_read_agree 2 [0] [1, 2] (Or.inr (by decide))⟩

/-- Claim C8 (confirmed): `unread(b); unread(a); read(len(a)+len(b))`
returns `a ++ b` for all sequences — the most recent pushback is consumed
first, ahead of older pushback and of any raw-stream data. -/
theorem c8_unread_lifo (a b buf s : List Nat) :
    (pyRead ((a.length + b.length : Nat) : Int) (pyUnread a (pyUnread b buf)) s).1 = a ++ b := by
  rw [pyUnread, pyUnread, pyRead_ofNat]
  dsimp only
  rw [show a ++ (b ++ buf) ++ s = (a ++ b) ++ (buf ++ s) by simp [List.append_assoc]]
  exact List.take_left' (by simp)

/-- Claim C10 (confirmed): constructing `TextIO(f)` again for a raw
stream that already has an engine re-runs `__init__` on the cached
instance: data `d` previously pushed back with `unread` is discarded (the
buffer is reset to empty), and the façade and lock objects are replaced
by fresh ones (fresh generation numbers, distinct from the old ones). -/
theorem c10_reinit_on_cached (f : RawDesc) (sid : Nat) (st : Sys) (i : Nat) (st1 : Sys)
    (d : List Nat) (h : textIOConstruct f sid st = .ok (i, st1)) :
    ∃ st3, textIOConstruct f sid (sysUnread i d st1) = .ok (i, st3)
      ∧ getEngine (sysUnread i d st1).engines i
          = some ⟨.charsKind, d, st.fresh, st.fresh + 1⟩
      ∧ getEngine st3.engines i
          = some ⟨.charsKind, [], st.fresh + 2, st.fresh + 3⟩ := by
  unfold textIOConstruct at h
  cases hm : textIONew f sid st.reg with
  | error e => rw [hm] at h; simp at h
  | ok p =>
    rw [hm] at h
    dsimp only at h
    simp only [Except.ok.injEq, Prod.mk.injEq] at h
    obtain ⟨hi, hst1⟩ := h
    subst hi
    subst hst1
    have hstable : textIONew f sid p.2 = .ok (p.1, p.2) := by
      have h' : textIONew f sid st.reg = .ok (p.1, p.2) := by rw [hm]
      exact textIONew_stable f sid p.1 st.reg p.2 h'
    have hg1 : getEngine (setEngine st.engines p.1 (textIOInit st.fresh)) p.1
        = some (textIOInit st.fresh) := getEngine_setEngine _ _ _
    have hu : sysUnread p.1 d
        ⟨p.2, setEngine st.engines p.1 (textIOInit st.fresh), st.fresh + 2⟩
        = ⟨p.2, setEngine (setEngine st.engines p.1 (textIOInit st.fresh)) p.1
            ⟨.charsKind, d, st.fresh, st.fresh + 1⟩, st.fresh + 2⟩ := by
      unfold sysUnread
      dsimp only
      rw [hg1]
      simp [textIOInit, ioWrapperBaseInit]
    rw [hu]
    refine ⟨⟨p.2, setEngine (setEngine (setEngine st.engines p.1 (textIOInit st.fresh)) p.1
        ⟨.charsKind, d, st.fresh, st.fresh + 1⟩) p.1 (textIOInit (st.fresh + 2)),
        st.fresh + 2 + 2⟩, ?_, ?_, ?_⟩
    · unfold textIOConstruct
      dsimp only
      rw [hstable]
    · exact getEngine_setEngine _ _ _
    · dsimp only
      rw [getEngine_setEngine]
      simp [textIOInit, ioWrapperBaseInit]

/-- Witness for `c10_reinit_on_cached`: wrap a text stream, push back
`[5]`, wrap again; the pushed-back data is discarded and the façade and
lock generations move from `0`/`1` to `2`/`3`. -/
theorem c10_reinit_on_cached_witness :
    textIOConstruct ⟨['r'], false, false⟩ 0 ⟨⟨[], 0, 0⟩, [], 0⟩
        = .ok (0, ⟨⟨[(0, 0)], 1, 1⟩, [(0, ⟨.charsKind, [], 0, 1⟩)], 2⟩)
      ∧ ∃ st3, textIOConstruct ⟨['r'], false, false⟩ 0
            (sysUnread 0 [5] ⟨⟨[(0, 0)], 1, 1⟩, [(0, ⟨.charsKind, [], 0, 1⟩)], 2⟩)
          = .ok (0, st3)
        ∧ getEngine (sysUnread 0 [5] ⟨⟨[(0, 0)], 1, 1⟩,
            [(0, ⟨.charsKind, [], 0, 1⟩)], 2⟩).engines 0
            = some ⟨.charsKind, [5], 0, 1⟩
        ∧ getEngine st3.engines 0 = some ⟨.charsKind, [], 2, 3⟩ :=
  ⟨rfl, c10_reinit_on_cached ⟨['r'], false, false⟩ 0 ⟨⟨[], 0, 0⟩, [], 0⟩ 0
    ⟨⟨[(0, 0)], 1, 1⟩, [(0, ⟨.charsKind, [], 0, 1⟩)], 2⟩ [5] rfl⟩

end Zstdlib
